import Mathlib

/-!
Verification of the finance-buddy client's export and aggregation logic.

Strings from the TypeScript source are modelled as `List Char` (`Str`);
JavaScript numbers are modelled as rationals (`ℚ`).  The JavaScript
number-to-string conversion (`String(x)` / template interpolation) and the
`date-fns` formatter `format(new Date(d), 'yyyy-MM-dd')` are external
library functions; they are taken as parameters (`numStr`, `fmtDate`) and
all theorems are proved for every choice of them.
-/

/-- Strings of the embedded program: JavaScript strings as lists of characters. -/
abbrev Str := List Char

/-- Coerce a Lean string literal into the embedded string type. -/
def str (s : String) : Str := s.data

/-- Model of `type TransactionType = 'income' | 'expense'` (src/lib/types.ts). -/
inductive TransactionType where
  | income
  | expense
deriving DecidableEq, Repr

/-- The literal string a `TransactionType` denotes in the source
(`t.type` is itself the string `'income'` or `'expense'`). -/
def typeStr : TransactionType → Str
  | .income => str "income"
  | .expense => str "expense"

/-- Model of `type CategoryGroup = 'fixed' | 'variable' | 'transfers'` (src/lib/types.ts). -/
inductive CategoryGroup where
  | fixed
  | variableG
  | transfers
deriving DecidableEq, Repr

/-- Model of `interface Category` (src/lib/types.ts). -/
structure Category where
  id : Str
  user_id : Str
  name : Str
  icon : Str
  color : Str
  type : TransactionType
  category_group : CategoryGroup
  is_default : Bool
  created_at : Str
deriving DecidableEq, Repr

/-- Model of `interface Transaction` (src/lib/types.ts).  Nullable / optional fields
are `Option`s; `amount` is the JavaScript number as a rational. -/
structure Transaction where
  id : Str
  user_id : Str
  category_id : Option Str
  amount : ℚ
  type : TransactionType
  description : Option Str
  date : Str
  is_recurring : Bool
  recurring_frequency : Option Str
  next_occurrence : Option Str
  reminder_enabled : Bool
  reminder_days_before : ℚ
  created_at : Str
  updated_at : Str
  category : Option Category
deriving DecidableEq, Repr

/-! ## CSV escaping (src/lib/export.ts, `escapeCSV`) -/

/-- Model of `value.replace(/"/g, '""')`: every double-quote is replaced by two. -/
def replaceQuotes : Str → Str
  | [] => []
  | c :: cs => if c = '"' then '"' :: '"' :: replaceQuotes cs else c :: replaceQuotes cs

/-- Function `escapeCSV` from src/lib/export.ts: quote the field iff it contains a
comma, a double-quote or a newline, doubling inner quotes. -/
def escapeCSV (value : Str) : Str :=
  if value.contains ',' || value.contains '"' || value.contains '\n' then
    '"' :: replaceQuotes value ++ ['"']
  else value

/-- Claim-level character escaper for CSV quoting: a double-quote becomes
two double-quotes, any other character is kept unchanged. -/
def csvEscChar (c : Char) : Str :=
  if c = '"' then ['"', '"'] else [c]

theorem replaceQuotes_eq_flatMap (v : Str) :
    replaceQuotes v = v.flatMap csvEscChar := by
  induction v with
  | nil => rfl
  | cons c cs ih =>
    simp only [replaceQuotes, List.flatMap_cons, csvEscChar, ih]
    split <;> simp

theorem contains_iff_mem (v : Str) (c : Char) : v.contains c = true ↔ c ∈ v := by
  simp [List.contains, List.elem_iff]

/-- C1. A field is wrapped in double quotes iff it contains a comma, a
double-quote or a newline; when wrapped, every inner double-quote is
doubled and nothing else is altered; otherwise the field is emitted
exactly as-is. -/
theorem csv_field_escaping (v : Str) :
    ((',' ∈ v ∨ '"' ∈ v ∨ '\n' ∈ v) →
      escapeCSV v = '"' :: v.flatMap csvEscChar ++ ['"']) ∧
    (¬ (',' ∈ v ∨ '"' ∈ v ∨ '\n' ∈ v) → escapeCSV v = v) := by
  have hiff : (v.contains ',' || v.contains '"' || v.contains '\n') = true ↔
      (',' ∈ v ∨ '"' ∈ v ∨ '\n' ∈ v) := by
    simp [contains_iff_mem, or_assoc]
  constructor
  · intro h
    rw [escapeCSV, if_pos (hiff.mpr h), replaceQuotes_eq_flatMap]
  · intro h
    rw [escapeCSV, if_neg (fun hc => h (hiff.mp hc))]

/-- C1 witness: the spec's scenario field `He said, "hi"` is rendered as
`"He said, ""hi"""`. -/
theorem csv_field_escaping_witness :
    (',' ∈ str "He said, \"hi\"" ∨ '"' ∈ str "He said, \"hi\"" ∨ '\n' ∈ str "He said, \"hi\"") ∧
    escapeCSV (str "He said, \"hi\"") = str "\"He said, \"\"hi\"\"\"" :=
  ⟨by decide,
    ((csv_field_escaping (str "He said, \"hi\"")).1 (by decide)).trans (by decide)⟩

/-! ## Aggregation (src/pages/Dashboard.tsx `stats`, src/pages/Budgets.tsx `stats`) -/

/-- The `stats` object of src/pages/Budgets.tsx. -/
structure BudgetsStats where
  expenses : ℚ
  income : ℚ
  budget : ℚ
deriving DecidableEq, Repr

/-- The `stats` object of src/pages/Dashboard.tsx. -/
structure DashboardStats where
  income : ℚ
  expenses : ℚ
  balance : ℚ
  budget : ℚ
deriving DecidableEq, Repr

/-- Model of `transactions.filter(t => t.type === k).reduce((sum, t) => sum + Number(t.amount), 0)`. -/
def sumByType (transactions : List Transaction) (k : TransactionType) : ℚ :=
  (transactions.filter fun t => t.type == k).foldl (fun sum t => sum + t.amount) 0

/-- Object `stats` from src/pages/Budgets.tsx: income and expense totals plus
`Number(profile?.monthly_budget) || 0` (the profile's budget, `0` when absent). -/
def budgetsStats (transactions : List Transaction) (monthly_budget : Option ℚ) :
    BudgetsStats :=
  { expenses := sumByType transactions .expense
    income := sumByType transactions .income
    budget := monthly_budget.getD 0 }

/-- Object `stats` from src/pages/Dashboard.tsx: the income figure is overridden by
`monthlyIncome` when that is positive (`monthlyIncome > 0 ? monthlyIncome : income`). -/
def dashboardStats (transactions : List Transaction) (monthlyIncome : ℚ)
    (monthly_budget : Option ℚ) : DashboardStats :=
  let income := sumByType transactions .income
  let expenses := sumByType transactions .expense
  let totalIncome := if monthlyIncome > 0 then monthlyIncome else income
  { income := totalIncome
    expenses := expenses
    balance := totalIncome - expenses
    budget := monthly_budget.getD 0 }

theorem foldl_add_amount (l : List Transaction) (a : ℚ) :
    l.foldl (fun sum t => sum + t.amount) a = a + (l.map (·.amount)).sum := by
  induction l generalizing a with
  | nil => simp
  | cons t l ih => simp [ih, add_assoc]

theorem sumByType_eq_sum (transactions : List Transaction) (k : TransactionType) :
    sumByType transactions k =
      ((transactions.filter fun t => t.type == k).map (·.amount)).sum := by
  simp [sumByType, foldl_add_amount]

/-! ## Category grouping (Dashboard `categorySpending`, Budgets `categoryBreakdown`)

Both pages build a `Map` keyed by `t.category_id`, filtering on
`t.type === 'expense' && t.category`, accumulating `Number(t.amount)` into
the existing entry or inserting `{ category: t.category, amount }`.
JavaScript `Map`s preserve insertion order, and updating an existing key
leaves it in place; the model is an association list with in-place update. -/

/-- One value of the grouping map (`{category, amount}` in Dashboard,
`{category, spent}` in Budgets — identical up to the field name). -/
structure CatAmount where
  category : Option Category
  amount : ℚ
deriving DecidableEq, Repr

/-- One entry of Dashboard's `categorySpending` result
(`CategorySpending` in src/lib/types.ts). -/
structure CategorySpending where
  category : Option Category
  amount : ℚ
  percentage : ℚ
deriving DecidableEq, Repr

/-- The `Map.get`/`Map.set` update step: add `a` to the entry at key `k` if
present (key stays in place), else append a fresh `{category := c, amount := a}`. -/
def upsert (m : List (Option Str × CatAmount)) (k : Option Str) (c : Option Category)
    (a : ℚ) : List (Option Str × CatAmount) :=
  match m with
  | [] => [(k, ⟨c, a⟩)]
  | kv :: rest =>
    if kv.1 = k then (kv.1, ⟨kv.2.category, kv.2.amount + a⟩) :: rest
    else kv :: upsert rest k c a

/-- The filter both pages apply before grouping:
`t.type === 'expense' && t.category`. -/
def isCatExpense (t : Transaction) : Bool :=
  t.type == TransactionType.expense && t.category.isSome

/-- The grouping `Map` (Dashboard's `categoryTotals`, Budgets' `breakdown`)
as an insertion-ordered association list. -/
def categoryTotals (transactions : List Transaction) : List (Option Str × CatAmount) :=
  (transactions.filter isCatExpense).foldl
    (fun m t => upsert m t.category_id t.category t.amount) []

/-- Model of `Array.from(map.values())`: the grouped entries in insertion order. -/
def categoryValues (transactions : List Transaction) : List CatAmount :=
  (categoryTotals transactions).map (·.2)

/-- Dashboard's `total`: `values.reduce((sum, c) => sum + c.amount, 0)` over
the grouped (categorized-expense) entries. -/
def catTotal (transactions : List Transaction) : ℚ :=
  (categoryValues transactions).foldl (fun sum c => sum + c.amount) 0

/-- Dashboard's per-entry mapping before sorting:
`{category, amount, percentage: total > 0 ? (amount / total) * 100 : 0}`. -/
def preSpending (transactions : List Transaction) : List CategorySpending :=
  (categoryValues transactions).map fun item =>
    { category := item.category
      amount := item.amount
      percentage :=
        if catTotal transactions > 0 then item.amount / catTotal transactions * 100
        else 0 }

/-- Model of `Array.prototype.sort` with comparator `(a, b) => b.key - a.key`:
a stable sort, descending on `key`.  Modelled by Mathlib's (stable)
insertion sort with the total relation `key b ≤ key a`. -/
def sortDesc {α : Type} (key : α → ℚ) (l : List α) : List α :=
  l.insertionSort fun a b => key b ≤ key a

/-- Dashboard's `categorySpending` (src/pages/Dashboard.tsx). -/
def categorySpending (transactions : List Transaction) : List CategorySpending :=
  sortDesc (·.amount) (preSpending transactions)

/-- Budgets' `categoryBreakdown` (src/pages/Budgets.tsx):
the grouped entries sorted descending by accumulated amount. -/
def categoryBreakdown (transactions : List Transaction) : List CatAmount :=
  sortDesc (·.amount) (categoryValues transactions)

/-- Budgets' rendered percentage for one breakdown entry:
`stats.expenses > 0 ? (spent / stats.expenses) * 100 : 0`. -/
def budgetsPercentage (transactions : List Transaction) (monthly_budget : Option ℚ)
    (spent : ℚ) : ℚ :=
  if (budgetsStats transactions monthly_budget).expenses > 0 then
    spent / (budgetsStats transactions monthly_budget).expenses * 100
  else 0

/-! ## Concrete sample data (used by witnesses and counterexamples) -/

/-- A transaction with the given kind, amount and category data; the
remaining fields are irrelevant to the claims and fixed arbitrarily. -/
def mkTx (ty : TransactionType) (amt : ℚ) (cid : Option Str) (cat : Option Category) :
    Transaction :=
  { id := str "t", user_id := str "u", category_id := cid, amount := amt, type := ty
    description := none, date := str "2025-01-15", is_recurring := false
    recurring_frequency := none, next_occurrence := none, reminder_enabled := false
    reminder_days_before := 0, created_at := [], updated_at := [], category := cat }

def catFood : Category :=
  { id := str "food", user_id := str "u", name := str "Food", icon := str "utensils"
    color := str "#FF0000", type := .expense, category_group := .variableG
    is_default := false, created_at := [] }

def catRent : Category :=
  { id := str "rent", user_id := str "u", name := str "Rent", icon := str "home"
    color := str "#00FF00", type := .expense, category_group := .fixed
    is_default := false, created_at := [] }

/-- The spec's aggregation scenario: $60 Food and $40 Rent expenses, $200 income. -/
def sampleTxs : List Transaction :=
  [mkTx .expense 60 (some (str "food")) (some catFood),
   mkTx .expense 40 (some (str "rent")) (some catRent),
   mkTx .income 200 none none]

/-- One categorized $50 expense and one uncategorized $50 expense. -/
def mixedTxs : List Transaction :=
  [mkTx .expense 50 (some (str "food")) (some catFood),
   mkTx .expense 50 none none]

/-! ## C2: totals and net -/

/-- C2 (amended).  Budgets' `stats.income` / `stats.expenses` are the sums of
the income / expense transaction amounts; Dashboard's `stats.expenses` is the
expense sum and its `balance` always equals its returned `income` minus its
returned `expenses`; but Dashboard's `income` equals the income-transaction
sum only when `monthlyIncome ≤ 0`, and equals `monthlyIncome` when that is
positive. -/
theorem stats_totals (transactions : List Transaction) (monthlyIncome : ℚ)
    (monthly_budget : Option ℚ) :
    (budgetsStats transactions monthly_budget).income =
      ((transactions.filter fun t => t.type == TransactionType.income).map (·.amount)).sum ∧
    (budgetsStats transactions monthly_budget).expenses =
      ((transactions.filter fun t => t.type == TransactionType.expense).map (·.amount)).sum ∧
    (dashboardStats transactions monthlyIncome monthly_budget).expenses =
      ((transactions.filter fun t => t.type == TransactionType.expense).map (·.amount)).sum ∧
    (dashboardStats transactions monthlyIncome monthly_budget).balance =
      (dashboardStats transactions monthlyIncome monthly_budget).income -
        (dashboardStats transactions monthlyIncome monthly_budget).expenses ∧
    (monthlyIncome ≤ 0 →
      (dashboardStats transactions monthlyIncome monthly_budget).income =
        ((transactions.filter fun t => t.type == TransactionType.income).map (·.amount)).sum) ∧
    (0 < monthlyIncome →
      (dashboardStats transactions monthlyIncome monthly_budget).income = monthlyIncome) := by
  refine ⟨sumByType_eq_sum .., sumByType_eq_sum .., sumByType_eq_sum .., rfl, ?_, ?_⟩
  · intro h
    simp [dashboardStats, not_lt.mpr h, sumByType_eq_sum]
  · intro h
    simp [dashboardStats, h]

/-- C2 counterexample: with no transactions at all but a positive
`monthlyIncome` of 100, Dashboard's returned income is 100, while the sum of
the income-transaction amounts is 0 — so `totalIncome` is not always the sum
of the income transactions' amounts. -/
theorem stats_totals_counterexample :
    (dashboardStats [] 100 none).income = 100 ∧
    ((([] : List Transaction).filter fun t => t.type == TransactionType.income).map
      (·.amount)).sum = 0 ∧
    (100 : ℚ) ≠ 0 :=
  ⟨rfl, rfl, by norm_num⟩

/-- C2 witness: both hypotheses of `stats_totals` discharged at concrete inputs. -/
theorem stats_totals_witness :
    ((0 : ℚ) ≤ 0 ∧ (dashboardStats sampleTxs 0 none).income =
      ((sampleTxs.filter fun t => t.type == TransactionType.income).map (·.amount)).sum) ∧
    ((0 : ℚ) < 1 ∧ (dashboardStats sampleTxs 1 none).income = 1) :=
  ⟨⟨le_refl 0, (stats_totals sampleTxs 0 none).2.2.2.2.1 (le_refl 0)⟩,
   ⟨by norm_num, (stats_totals sampleTxs 1 none).2.2.2.2.2 (by norm_num)⟩⟩

/-! ## C7: breakdown amounts sum to the expense total -/

theorem upsert_amount_sum (m : List (Option Str × CatAmount)) (k : Option Str)
    (c : Option Category) (a : ℚ) :
    ((upsert m k c a).map (fun kv => kv.2.amount)).sum =
      (m.map (fun kv => kv.2.amount)).sum + a := by
  induction m with
  | nil => simp [upsert]
  | cons kv rest ih =>
    rw [upsert]
    split
    · simp [add_assoc, add_comm a]
    · simp [ih, add_assoc]

theorem foldl_upsert_sum (l : List Transaction) (m : List (Option Str × CatAmount)) :
    (((l.foldl (fun m t => upsert m t.category_id t.category t.amount) m)).map
        (fun kv => kv.2.amount)).sum =
      (m.map (fun kv => kv.2.amount)).sum + (l.map (·.amount)).sum := by
  induction l generalizing m with
  | nil => simp
  | cons t l ih => simp [ih, upsert_amount_sum, add_assoc]

/-- The grouped entries' amounts sum to the total amount of the
categorized expense transactions. -/
theorem categoryValues_sum (transactions : List Transaction) :
    ((categoryValues transactions).map (·.amount)).sum =
      ((transactions.filter isCatExpense).map (·.amount)).sum := by
  have h := foldl_upsert_sum (transactions.filter isCatExpense) []
  simpa [categoryValues, categoryTotals, List.map_map, Function.comp] using h

theorem filter_isCatExpense_of_categorized (transactions : List Transaction)
    (h : ∀ t ∈ transactions, t.type = TransactionType.expense → t.category ≠ none) :
    transactions.filter isCatExpense =
      transactions.filter fun t => t.type == TransactionType.expense := by
  apply List.filter_congr
  intro t ht
  cases hty : t.type with
  | income => simp [isCatExpense, hty]
  | expense =>
    have hcat : t.category ≠ none := h t ht hty
    have : t.category.isSome = true := Option.isSome_iff_ne_none.mpr hcat
    simp [isCatExpense, hty, this]

theorem sum_filter_catExpense_le (transactions : List Transaction)
    (h : ∀ t ∈ transactions, t.type = TransactionType.expense → t.category = none →
      0 ≤ t.amount) :
    ((transactions.filter isCatExpense).map (·.amount)).sum ≤
      ((transactions.filter fun t => t.type == TransactionType.expense).map
        (·.amount)).sum := by
  induction transactions with
  | nil => simp
  | cons t ts ih =>
    have iht := ih fun x hx => h x (List.mem_cons_of_mem _ hx)
    cases hty : t.type with
    | income =>
      have h1 : isCatExpense t = false := by simp [isCatExpense, hty]
      have h2 : (t.type == TransactionType.expense) = false := by simp [hty]
      simpa [List.filter_cons, h1, h2] using iht
    | expense =>
      have h2 : (t.type == TransactionType.expense) = true := by simp [hty]
      cases hcat : t.category with
      | some c =>
        have h1 : isCatExpense t = true := by simp [isCatExpense, hty, hcat]
        simpa [List.filter_cons, h1, h2] using add_le_add_left iht t.amount
      | none =>
        have hnn : 0 ≤ t.amount := h t (List.mem_cons_self t ts) hty hcat
        have h1 : isCatExpense t = false := by simp [isCatExpense, hty, hcat]
        simp only [List.filter_cons, h1, h2]
        simp only [if_true, if_false, List.map_cons, List.sum_cons, cond_true, cond_false]
        calc ((ts.filter isCatExpense).map (·.amount)).sum
            ≤ ((ts.filter fun t => t.type == TransactionType.expense).map (·.amount)).sum :=
              iht
          _ ≤ t.amount +
              ((ts.filter fun t => t.type == TransactionType.expense).map (·.amount)).sum :=
              le_add_of_nonneg_left hnn

theorem sortDesc_map_amount_sum_spending (transactions : List Transaction) :
    ((categorySpending transactions).map (·.amount)).sum =
      ((categoryValues transactions).map (·.amount)).sum := by
  have hperm : List.Perm ((categorySpending transactions).map (·.amount))
      ((preSpending transactions).map (·.amount)) :=
    (List.perm_insertionSort _ _).map _
  rw [hperm.sum_eq]
  simp only [preSpending, List.map_map]
  rfl

theorem sortDesc_map_amount_sum_breakdown (transactions : List Transaction) :
    ((categoryBreakdown transactions).map (·.amount)).sum =
      ((categoryValues transactions).map (·.amount)).sum := by
  have hperm : List.Perm ((categoryBreakdown transactions).map (·.amount))
      ((categoryValues transactions).map (·.amount)) :=
    (List.perm_insertionSort _ _).map _
  exact hperm.sum_eq

/-- C7.  When every expense transaction is categorized, the breakdown
amounts (Dashboard's `categorySpending` and Budgets' `categoryBreakdown`)
sum exactly to the expense total; when uncategorized expenses exist but have
non-negative amounts, the breakdown sum is at most the expense total. -/
theorem breakdown_sum_totalExpense (transactions : List Transaction) :
    ((∀ t ∈ transactions, t.type = TransactionType.expense → t.category ≠ none) →
      ((categorySpending transactions).map (·.amount)).sum =
          sumByType transactions .expense ∧
      ((categoryBreakdown transactions).map (·.amount)).sum =
          sumByType transactions .expense) ∧
    ((∀ t ∈ transactions, t.type = TransactionType.expense → t.category = none →
        0 ≤ t.amount) →
      ((categorySpending transactions).map (·.amount)).sum ≤
          sumByType transactions .expense ∧
      ((categoryBreakdown transactions).map (·.amount)).sum ≤
          sumByType transactions .expense) := by
  constructor
  · intro h
    have key : ((categoryValues transactions).map (·.amount)).sum =
        sumByType transactions .expense := by
      rw [categoryValues_sum, filter_isCatExpense_of_categorized transactions h,
        sumByType_eq_sum]
    exact ⟨by rw [sortDesc_map_amount_sum_spending, key],
      by rw [sortDesc_map_amount_sum_breakdown, key]⟩
  · intro h
    have key : ((categoryValues transactions).map (·.amount)).sum ≤
        sumByType transactions .expense := by
      rw [categoryValues_sum, sumByType_eq_sum]
      exact sum_filter_catExpense_le transactions h
    exact ⟨by rw [sortDesc_map_amount_sum_spending]; exact key,
      by rw [sortDesc_map_amount_sum_breakdown]; exact key⟩

/-- C7 witness: on the spec's scenario the categorized breakdown sums to the
expense total 100; on a list with an uncategorized $50 expense the breakdown
sum is bounded by the expense total. -/
theorem breakdown_sum_totalExpense_witness :
    ((∀ t ∈ sampleTxs, t.type = TransactionType.expense → t.category ≠ none) ∧
      ((categorySpending sampleTxs).map (·.amount)).sum = sumByType sampleTxs .expense) ∧
    ((∀ t ∈ mixedTxs, t.type = TransactionType.expense → t.category = none →
        0 ≤ t.amount) ∧
      ((categoryBreakdown mixedTxs).map (·.amount)).sum ≤ sumByType mixedTxs .expense) :=
  ⟨⟨by decide, ((breakdown_sum_totalExpense sampleTxs).1 (by decide)).1⟩,
   ⟨by decide, ((breakdown_sum_totalExpense mixedTxs).2 (by decide)).2⟩⟩

/-! ## C3: percentages -/

/-- A single categorized expense of amount 0 (so the denominator is 0). -/
def zeroTxs : List Transaction :=
  [mkTx .expense 0 (some (str "food")) (some catFood)]

theorem foldl_add_catAmount (l : List CatAmount) (a : ℚ) :
    l.foldl (fun sum c => sum + c.amount) a = a + (l.map (·.amount)).sum := by
  induction l generalizing a with
  | nil => simp
  | cons c l ih => simp [ih, add_assoc]

theorem sortDesc_singleton {α : Type} (key : α → ℚ) (x : α) : sortDesc key [x] = [x] := rfl

/-- C3 (amended).  Dashboard's percentages are computed against `total`, the
sum of the *categorized* expense amounts (the breakdown's own total), not the
total over all expense transactions: each entry carries
`percentage = amount / total * 100` when `total > 0` and `0` otherwise.
Budgets' displayed percentage does use the all-expense total
(`stats.expenses`), with the same guard.  In both, a non-positive
denominator yields percentage 0, so division by zero never occurs. -/
theorem breakdown_percentages (transactions : List Transaction)
    (monthly_budget : Option ℚ) :
    catTotal transactions = ((transactions.filter isCatExpense).map (·.amount)).sum ∧
    (∀ e ∈ categorySpending transactions,
      e.percentage =
        if 0 < catTotal transactions then e.amount / catTotal transactions * 100 else 0) ∧
    (∀ spent : ℚ, budgetsPercentage transactions monthly_budget spent =
      if 0 < sumByType transactions .expense then
        spent / sumByType transactions .expense * 100
      else 0) ∧
    (catTotal transactions ≤ 0 →
      ∀ e ∈ categorySpending transactions, e.percentage = 0) ∧
    (sumByType transactions .expense ≤ 0 →
      ∀ spent : ℚ, budgetsPercentage transactions monthly_budget spent = 0) := by
  have hcat : catTotal transactions =
      ((transactions.filter isCatExpense).map (·.amount)).sum := by
    rw [catTotal, foldl_add_catAmount, zero_add, categoryValues_sum]
  have hmem : ∀ e ∈ categorySpending transactions,
      e.percentage =
        if 0 < catTotal transactions then e.amount / catTotal transactions * 100 else 0 := by
    intro e he
    have he' : e ∈ preSpending transactions :=
      (List.mem_insertionSort _).mp he
    obtain ⟨item, _, rfl⟩ := List.mem_map.mp he'
    rfl
  refine ⟨hcat, hmem, fun spent => rfl, ?_, ?_⟩
  · intro h e he
    rw [hmem e he, if_neg (not_lt.mpr h)]
  · intro h spent
    rw [budgetsPercentage, if_neg]
    exact not_lt.mpr h

theorem categoryValues_mixedTxs : categoryValues mixedTxs = [⟨some catFood, 50⟩] := by
  simp [categoryValues, categoryTotals, mixedTxs, isCatExpense, mkTx, upsert]

theorem catTotal_mixedTxs : catTotal mixedTxs = 50 := by
  simp [catTotal, categoryValues_mixedTxs]

theorem categorySpending_mixedTxs :
    categorySpending mixedTxs = [⟨some catFood, 50, 100⟩] := by
  have hps : preSpending mixedTxs = [⟨some catFood, 50, 100⟩] := by
    rw [preSpending, categoryValues_mixedTxs, catTotal_mixedTxs]
    norm_num
  rw [categorySpending, hps, sortDesc_singleton]

theorem sumByType_mixedTxs : sumByType mixedTxs .expense = 100 := by
  simp [sumByType, mixedTxs, mkTx]
  norm_num

/-- C3 counterexample: with a categorized $50 expense and an uncategorized
$50 expense, Dashboard's only breakdown entry has percentage 100, while
`100 * categoryAmount / totalExpense` over all expenses is
`100 * 50 / 100 = 50`. -/
theorem breakdown_percentages_counterexample :
    (categorySpending mixedTxs).map (·.percentage) = [100] ∧
    (categorySpending mixedTxs).map (·.amount) = [50] ∧
    sumByType mixedTxs .expense = 100 ∧
    (100 : ℚ) ≠ 100 * 50 / 100 := by
  refine ⟨by rw [categorySpending_mixedTxs]; rfl,
    by rw [categorySpending_mixedTxs]; rfl, sumByType_mixedTxs, by norm_num⟩

theorem categoryValues_zeroTxs : categoryValues zeroTxs = [⟨some catFood, 0⟩] := by
  simp [categoryValues, categoryTotals, zeroTxs, isCatExpense, mkTx, upsert]

theorem catTotal_zeroTxs : catTotal zeroTxs = 0 := by
  simp [catTotal, categoryValues_zeroTxs]

theorem categorySpending_zeroTxs :
    categorySpending zeroTxs = [⟨some catFood, 0, 0⟩] := by
  have hps : preSpending zeroTxs = [⟨some catFood, 0, 0⟩] := by
    rw [preSpending, categoryValues_zeroTxs, catTotal_zeroTxs]
    norm_num
  rw [categorySpending, hps, sortDesc_singleton]

theorem sumByType_zeroTxs : sumByType zeroTxs .expense = 0 := by
  simp [sumByType, zeroTxs, mkTx]

/-- C3 witness: the hypotheses of `breakdown_percentages` discharged at
concrete inputs, including the zero-denominator case. -/
theorem breakdown_percentages_witness :
    ((⟨some catFood, 50, 100⟩ : CategorySpending) ∈ categorySpending mixedTxs ∧
      (⟨some catFood, 50, 100⟩ : CategorySpending).percentage =
        if 0 < catTotal mixedTxs then
          (⟨some catFood, 50, 100⟩ : CategorySpending).amount / catTotal mixedTxs * 100
        else 0) ∧
    (catTotal zeroTxs ≤ 0 ∧
      (⟨some catFood, 0, 0⟩ : CategorySpending) ∈ categorySpending zeroTxs ∧
      (⟨some catFood, 0, 0⟩ : CategorySpending).percentage = 0) ∧
    (sumByType zeroTxs .expense ≤ 0 ∧ budgetsPercentage zeroTxs none 7 = 0) := by
  have hm : (⟨some catFood, 50, 100⟩ : CategorySpending) ∈ categorySpending mixedTxs := by
    rw [categorySpending_mixedTxs]
    exact List.mem_singleton.mpr rfl
  have hz : (⟨some catFood, 0, 0⟩ : CategorySpending) ∈ categorySpending zeroTxs := by
    rw [categorySpending_zeroTxs]
    exact List.mem_singleton.mpr rfl
  have hz0 : catTotal zeroTxs ≤ 0 := le_of_eq catTotal_zeroTxs
  have hs0 : sumByType zeroTxs .expense ≤ 0 := le_of_eq sumByType_zeroTxs
  exact ⟨⟨hm, (breakdown_percentages mixedTxs none).2.1 _ hm⟩,
    ⟨hz0, hz, (breakdown_percentages zeroTxs none).2.2.2.1 hz0 _ hz⟩,
    ⟨hs0, (breakdown_percentages zeroTxs none).2.2.2.2 hs0 7⟩⟩

/-! ## C6: descending order and stability -/

/-- The claim's notion of "the order in which each category was first
encountered": left fold collecting each key the first time it appears. -/
def firstSeenKeys (transactions : List Transaction) : List (Option Str) :=
  (transactions.filter isCatExpense).foldl
    (fun acc t => if t.category_id ∈ acc then acc else acc ++ [t.category_id]) []

theorem upsert_keys (m : List (Option Str × CatAmount)) (k : Option Str)
    (c : Option Category) (a : ℚ) :
    (upsert m k c a).map Prod.fst =
      if k ∈ m.map Prod.fst then m.map Prod.fst else m.map Prod.fst ++ [k] := by
  induction m with
  | nil => simp [upsert]
  | cons kv rest ih =>
    rw [upsert]
    split
    · rename_i h
      subst h
      simp only [List.map_cons]
      rw [if_pos (List.mem_cons_self _ _)]
    · rename_i h
      have hne : ¬ k = kv.1 := fun hk => h hk.symm
      simp only [List.map_cons, ih, List.mem_cons, hne, false_or]
      by_cases hm : k ∈ rest.map Prod.fst
      · simp [hm]
      · simp [hm]

theorem foldl_upsert_keys (l : List Transaction) (m : List (Option Str × CatAmount)) :
    ((l.foldl (fun m t => upsert m t.category_id t.category t.amount) m)).map Prod.fst =
      l.foldl (fun acc t => if t.category_id ∈ acc then acc else acc ++ [t.category_id])
        (m.map Prod.fst) := by
  induction l generalizing m with
  | nil => rfl
  | cons t l ih => rw [List.foldl_cons, List.foldl_cons, ih, upsert_keys]

/-- The grouping map lists the category keys in first-encounter order. -/
theorem categoryTotals_keys (transactions : List Transaction) :
    (categoryTotals transactions).map Prod.fst = firstSeenKeys transactions :=
  foldl_upsert_keys (transactions.filter isCatExpense) []

theorem filter_orderedInsert_key {α : Type} (key : α → ℚ) (v : ℚ) (a : α) (l : List α) :
    ((List.orderedInsert (fun a b => key b ≤ key a) a l).filter fun x => decide (key x = v)) =
      if key a = v then a :: l.filter (fun x => decide (key x = v))
      else l.filter fun x => decide (key x = v) := by
  induction l with
  | nil =>
    by_cases hav : key a = v <;> simp [List.orderedInsert, hav]
  | cons b l ih =>
    rw [List.orderedInsert]
    split
    · by_cases hav : key a = v <;> simp [List.filter_cons, hav]
    · rename_i hgt
      rw [List.filter_cons, List.filter_cons, ih]
      by_cases hav : key a = v
      · have hbv : ¬ key b = v := fun hb => hgt (le_of_eq (by rw [hb, hav]))
        simp [hav, hbv]
      · simp [hav]

/-- Stability of `sortDesc`: filtering by any fixed key value is unchanged. -/
theorem filter_sortDesc_key {α : Type} (key : α → ℚ) (v : ℚ) (l : List α) :
    ((sortDesc key l).filter fun x => decide (key x = v)) =
      l.filter fun x => decide (key x = v) := by
  induction l with
  | nil => rfl
  | cons a l ih =>
    rw [sortDesc, List.insertionSort]
    rw [filter_orderedInsert_key]
    rw [sortDesc] at ih
    rw [ih, List.filter_cons]
    by_cases hav : key a = v <;> simp [hav]

theorem sortDesc_sorted {α : Type} (key : α → ℚ) (l : List α) :
    (sortDesc key l).Sorted fun a b => key b ≤ key a := by
  haveI : IsTotal α fun a b => key b ≤ key a := ⟨fun a b => le_total (key b) (key a)⟩
  haveI : IsTrans α fun a b => key b ≤ key a := ⟨fun a b c hab hbc => le_trans hbc hab⟩
  exact List.sorted_insertionSort _ l

/-- C6.  Both breakdowns are sorted descending by amount; the sort is stable
(filtering either breakdown by any fixed amount value returns exactly the
corresponding unsorted grouped entries, in their original order), and the
grouping map lists categories in the order each was first encountered in
the input. -/
theorem breakdown_sorted_stable (transactions : List Transaction) :
    (categorySpending transactions).Sorted (fun a b => b.amount ≤ a.amount) ∧
    (categoryBreakdown transactions).Sorted (fun a b => b.amount ≤ a.amount) ∧
    (∀ v : ℚ, ((categorySpending transactions).filter fun e => decide (e.amount = v)) =
      (preSpending transactions).filter fun e => decide (e.amount = v)) ∧
    (∀ v : ℚ, ((categoryBreakdown transactions).filter fun e => decide (e.amount = v)) =
      (categoryValues transactions).filter fun e => decide (e.amount = v)) ∧
    (categoryTotals transactions).map Prod.fst = firstSeenKeys transactions :=
  ⟨sortDesc_sorted _ _, sortDesc_sorted _ _,
   fun v => filter_sortDesc_key _ v _, fun v => filter_sortDesc_key _ v _,
   categoryTotals_keys transactions⟩

/-! ## Exporter (src/lib/export.ts)

`numStr : ℚ → Str` models the JavaScript number→string conversion
(`String(x)` and template interpolation); `fmtDate : Str → Str` models
`format(new Date(d), 'yyyy-MM-dd')`; `today : Str` models
`format(new Date(), 'yyyy-MM-dd')`.  The `downloadBlob` sink call is
modelled by returning `some (content, mimeType, filename)`; the empty-list
early return is `none`. -/

/-- JavaScript `x || d` for a string-or-undefined `x`: the fallback `d` is
used when `x` is absent or the empty string (both are falsy). -/
def jsOrOpt (v : Option Str) (d : Str) : Str :=
  match v with
  | some s => if s = [] then d else s
  | none => d

/-- The shared header array of both exporters. -/
def headers : List Str :=
  [str "Date", str "Type", str "Category", str "Amount", str "Description",
   str "Recurring", str "Frequency"]

/-- One CSV row (already stringified), as built in `exportToCSV`. -/
def csvRow (numStr : ℚ → Str) (fmtDate : Str → Str) (t : Transaction) : List Str :=
  [fmtDate t.date,
   typeStr t.type,
   jsOrOpt (t.category.map (·.name)) (str "Uncategorized"),
   numStr t.amount,
   jsOrOpt t.description [],
   if t.is_recurring then str "Yes" else str "No",
   jsOrOpt t.recurring_frequency []]

/-- A cell of an Excel row: every column is a string except the raw numeric
amount kept as a number (`t.amount`, not `String(t.amount)`). -/
inductive CellV where
  | s (v : Str)
  | n (v : ℚ)
deriving DecidableEq, Repr

/-- Model of `String(cell)` / template interpolation applied to a row cell. -/
def cellToStr (numStr : ℚ → Str) : CellV → Str
  | .s v => v
  | .n q => numStr q

/-- One Excel row, as built in `exportToExcel` (amount kept numeric). -/
def excelRow (fmtDate : Str → Str) (t : Transaction) : List CellV :=
  [.s (fmtDate t.date),
   .s (typeStr t.type),
   .s (jsOrOpt (t.category.map (·.name)) (str "Uncategorized")),
   .n t.amount,
   .s (jsOrOpt t.description []),
   .s (if t.is_recurring then str "Yes" else str "No"),
   .s (jsOrOpt t.recurring_frequency [])]

/-- Model of `row[1] === 'income' ? 'income' : 'expense'`: the Amount-cell style id is
chosen by comparing the row's already-stringified second slot with the
literal `'income'`. -/
def excelStyleFor (row : List CellV) : Str :=
  if row.get? 1 = some (CellV.s (str "income")) then str "income" else str "expense"

/-- Model of `s.replace(/&/g, '&amp;')`. -/
def replaceAmp : Str → Str
  | [] => []
  | c :: cs => if c = '&' then str "&amp;" ++ replaceAmp cs else c :: replaceAmp cs

/-- Model of `s.replace(/</g, '&lt;')`. -/
def replaceLt : Str → Str
  | [] => []
  | c :: cs => if c = '<' then str "&lt;" ++ replaceLt cs else c :: replaceLt cs

/-- Model of `String(cell).replace(/&/g, '&amp;').replace(/</g, '&lt;')`. -/
def escapeXML (s : Str) : Str := replaceLt (replaceAmp s)

/-- Claim-level XML text escaper: `&` becomes `&amp;`, `<` becomes `&lt;`,
every other character is kept unchanged. -/
def xmlEscChar (c : Char) : Str :=
  if c = '&' then str "&amp;" else if c = '<' then str "&lt;" else [c]

/-- The `<Cell>` markup emitted for one cell of a data row (`i` is the
column index within the row). -/
def renderCell (numStr : ℚ → Str) (row : List CellV) (i : Nat) (cell : CellV) : Str :=
  if i = 3 then
    str "        <Cell ss:StyleID=\"" ++ excelStyleFor row ++
      str "\"><Data ss:Type=\"Number\">" ++ cellToStr numStr cell ++
      str "</Data></Cell>\n"
  else
    str "        <Cell><Data ss:Type=\"String\">" ++ escapeXML (cellToStr numStr cell) ++
      str "</Data></Cell>\n"

/-- One `<Row>` of the data section. -/
def renderDataRow (numStr : ℚ → Str) (row : List CellV) : Str :=
  str "      <Row>\n" ++
    (row.enum.map fun p => renderCell numStr row p.1 p.2).flatten ++
    str "      </Row>\n"

/-- Document prefix: declaration, styles, worksheet and table opening. -/
def excelPrefix : Str :=
  str "<?xml version=\"1.0\" encoding=\"UTF-8\"?>\n" ++
  str "<?mso-application progid=\"Excel.Sheet\"?>\n" ++
  str "<Workbook xmlns=\"urn:schemas-microsoft-com:office:spreadsheet\"\n" ++
  str "  xmlns:ss=\"urn:schemas-microsoft-com:office:spreadsheet\">\n" ++
  str "  <Styles>\n" ++
  str "    <Style ss:ID=\"header\"><Font ss:Bold=\"1\"/><Interior ss:Color=\"#E2E8F0\" ss:Pattern=\"Solid\"/></Style>\n" ++
  str "    <Style ss:ID=\"income\"><Font ss:Color=\"#16A34A\"/></Style>\n" ++
  str "    <Style ss:ID=\"expense\"><Font ss:Color=\"#DC2626\"/></Style>\n" ++
  str "    <Style ss:ID=\"number\"><NumberFormat ss:Format=\"#,##0.00\"/></Style>\n" ++
  str "  </Styles>\n" ++
  str "  <Worksheet ss:Name=\"Transactions\">\n" ++
  str "    <Table>\n"

/-- The header `<Row>`. -/
def excelHeaderRow : Str :=
  str "      <Row>\n" ++
    (headers.map fun h =>
      str "        <Cell ss:StyleID=\"header\"><Data ss:Type=\"String\">" ++ h ++
        str "</Data></Cell>\n").flatten ++
  str "      </Row>\n"

/-- Document suffix. -/
def excelSuffix : Str :=
  str "    </Table>\n" ++ str "  </Worksheet>\n" ++ str "</Workbook>"

/-- Function `exportToCSV` (src/lib/export.ts): `none` on an empty list, otherwise the
`(content, mimeType, filename)` triple handed to `downloadBlob`. -/
def exportToCSV (numStr : ℚ → Str) (fmtDate : Str → Str)
    (transactions : List Transaction) (filename : Option Str) (today : Str) :
    Option (Str × Str × Str) :=
  if transactions.length = 0 then none
  else
    let rows := transactions.map (csvRow numStr fmtDate)
    let csvContent :=
      List.intercalate ['\n']
        ((List.intercalate [','] (headers.map escapeCSV)) ::
          rows.map fun row => List.intercalate [','] (row.map escapeCSV))
    some (csvContent, str "text/csv;charset=utf-8;",
      jsOrOpt filename (str "transactions-" ++ today ++ str ".csv"))

/-- Function `exportToExcel` (src/lib/export.ts): `none` on an empty list, otherwise
the `(content, mimeType, filename)` triple handed to `downloadBlob`. -/
def exportToExcel (numStr : ℚ → Str) (fmtDate : Str → Str)
    (transactions : List Transaction) (filename : Option Str) (today : Str) :
    Option (Str × Str × Str) :=
  if transactions.length = 0 then none
  else
    let rows := transactions.map (excelRow fmtDate)
    let xml :=
      excelPrefix ++ excelHeaderRow ++
        (rows.map (renderDataRow numStr)).flatten ++ excelSuffix
    some (xml, str "application/vnd.ms-excel",
      jsOrOpt filename (str "transactions-" ++ today ++ str ".xls"))

/-! ## C8: row construction -/

theorem jsOrOpt_name (oc : Option Category) :
    jsOrOpt (oc.map (·.name)) (str "Uncategorized") =
      match oc with
      | none => str "Uncategorized"
      | some c => if c.name = [] then str "Uncategorized" else c.name := by
  cases oc <;> rfl

theorem jsOrOpt_empty (o : Option Str) : jsOrOpt o [] = o.getD [] := by
  cases o with
  | none => rfl
  | some s =>
    simp only [jsOrOpt, Option.getD_some]
    split
    · rename_i h
      exact h.symm
    · rfl

/-- C8 (amended).  Both exporters build each transaction's row as exactly the
7-tuple Date, Type, Category, Amount, Description, Recurring, Frequency, and
the header row names those columns in that order; but the `"Uncategorized"`
fallback applies not only when the category is absent — it also applies when
a present category's name is the empty string (JavaScript `||` treats the
empty string as falsy).  Description and frequency fall back to the empty
string exactly when absent. -/
theorem export_row_columns (numStr : ℚ → Str) (fmtDate : Str → Str) (t : Transaction) :
    csvRow numStr fmtDate t =
      [fmtDate t.date,
       typeStr t.type,
       (match t.category with
        | none => str "Uncategorized"
        | some c => if c.name = [] then str "Uncategorized" else c.name),
       numStr t.amount,
       t.description.getD [],
       (if t.is_recurring then str "Yes" else str "No"),
       t.recurring_frequency.getD []] ∧
    excelRow fmtDate t =
      [.s (fmtDate t.date),
       .s (typeStr t.type),
       .s (match t.category with
           | none => str "Uncategorized"
           | some c => if c.name = [] then str "Uncategorized" else c.name),
       .n t.amount,
       .s (t.description.getD []),
       .s (if t.is_recurring then str "Yes" else str "No"),
       .s (t.recurring_frequency.getD [])] ∧
    headers = [str "Date", str "Type", str "Category", str "Amount",
      str "Description", str "Recurring", str "Frequency"] := by
  refine ⟨?_, ?_, rfl⟩
  · rw [csvRow, jsOrOpt_name, jsOrOpt_empty, jsOrOpt_empty]
  · rw [excelRow, jsOrOpt_name, jsOrOpt_empty, jsOrOpt_empty]

/-- A category whose display name is the empty string. -/
def emptyNameCat : Category := { catFood with name := [] }

/-- An expense carrying `emptyNameCat`. -/
def emptyNameTx : Transaction := mkTx .expense 5 (some (str "food")) (some emptyNameCat)

/-- C8 counterexample: a present category with empty name is rendered as
`"Uncategorized"`, not as its (empty) name — the fallback does not fire only
"when the category is absent". -/
theorem export_row_columns_counterexample :
    (csvRow (fun _ => []) id emptyNameTx).get? 2 = some (str "Uncategorized") ∧
    emptyNameTx.category.map (·.name) = some [] ∧
    str "Uncategorized" ≠ ([] : Str) :=
  ⟨rfl, rfl, by decide⟩

/-! ## C9: style selection equivalence -/

/-- C9.  The Amount-cell style id chosen by comparing the row's stringified
second slot against the literal `'income'` coincides with keying on the
transaction's structured kind: `income` style iff `t.type` is income. -/
theorem excel_style_equiv (fmtDate : Str → Str) (t : Transaction) :
    excelStyleFor (excelRow fmtDate t) =
      if t.type = TransactionType.income then str "income" else str "expense" := by
  cases ht : t.type <;> simp [excelStyleFor, excelRow, typeStr, ht, str]

/-! ## C5: cell typing and XML escaping -/

theorem replaceLt_amp (x : Str) :
    replaceLt ('&' :: 'a' :: 'm' :: 'p' :: ';' :: x) =
      '&' :: 'a' :: 'm' :: 'p' :: ';' :: replaceLt x := by
  simp [replaceLt]

theorem escapeXML_eq_flatMap (s : Str) : escapeXML s = s.flatMap xmlEscChar := by
  induction s with
  | nil => rfl
  | cons c cs ih =>
    show replaceLt (replaceAmp (c :: cs)) = _
    rw [replaceAmp]
    by_cases h : c = '&'
    · rw [if_pos h, h]
      show replaceLt ('&' :: 'a' :: 'm' :: 'p' :: ';' :: replaceAmp cs) = _
      rw [replaceLt_amp, List.flatMap_cons]
      exact congrArg (fun l => '&' :: 'a' :: 'm' :: 'p' :: ';' :: l) ih
    · rw [if_neg h, replaceLt]
      by_cases h2 : c = '<'
      · rw [if_pos h2, h2, List.flatMap_cons]
        show '&' :: 'l' :: 't' :: ';' :: replaceLt (replaceAmp cs) = _
        exact congrArg (fun l => '&' :: 'l' :: 't' :: ';' :: l) ih
      · rw [if_neg h2, List.flatMap_cons, xmlEscChar, if_neg h, if_neg h2]
        exact congrArg (fun l => c :: l) ih

/-- Claim-level rendering of a string-typed cell: the text is the value with
`&` → `&amp;`, `<` → `&lt;` and no other character escaped. -/
def xmlStringCellSpec (v : Str) : Str :=
  str "        <Cell><Data ss:Type=\"String\">" ++ v.flatMap xmlEscChar ++
    str "</Data></Cell>\n"

/-- C5.  In every emitted data row, the Amount column (index 3) is a
numeric-typed cell containing the stringified number verbatim (no escaping),
and each of the six other columns is a string-typed cell whose text is the
slot value with exactly `&` → `&amp;` and `<` → `&lt;` escaped. -/
theorem excel_row_cells (numStr : ℚ → Str) (fmtDate : Str → Str) (t : Transaction) :
    renderDataRow numStr (excelRow fmtDate t) =
      str "      <Row>\n" ++
      (xmlStringCellSpec (fmtDate t.date) ++
       (xmlStringCellSpec (typeStr t.type) ++
        (xmlStringCellSpec (jsOrOpt (t.category.map (·.name)) (str "Uncategorized")) ++
         ((str "        <Cell ss:StyleID=\"" ++ excelStyleFor (excelRow fmtDate t) ++
            str "\"><Data ss:Type=\"Number\">" ++ numStr t.amount ++
            str "</Data></Cell>\n") ++
          (xmlStringCellSpec (jsOrOpt t.description []) ++
           (xmlStringCellSpec (if t.is_recurring then str "Yes" else str "No") ++
            (xmlStringCellSpec (jsOrOpt t.recurring_frequency []) ++
             str "      </Row>\n"))))))) := by
  rw [renderDataRow]
  simp only [excelRow, List.enum, List.enumFrom, List.map, List.flatten, renderCell,
    cellToStr, escapeXML_eq_flatMap, xmlStringCellSpec]
  norm_num [List.append_assoc]

/-! ## C4: empty input is a no-op -/

/-- C4.  On the empty transaction list both exporters return without
producing output — no serialized text is built and the sink triple is never
produced — for every choice of the optional filename (and of the external
stringifiers and the current date). -/
theorem export_empty_noop (numStr : ℚ → Str) (fmtDate : Str → Str)
    (filename : Option Str) (today : Str) :
    exportToCSV numStr fmtDate [] filename today = none ∧
    exportToExcel numStr fmtDate [] filename today = none :=
  ⟨rfl, rfl⟩

/-! ## C10: determinism -/

/-- C10 (amended).  Both exporters are pure functions of the transaction
list, the supplied filename and the external stringifiers: with a *non-empty*
explicitly supplied filename the produced `(content, mimeType, filename)`
triple is independent of the current date, hence identical across runs.
(An explicitly supplied *empty* filename is falsy in JavaScript, so the
date-based default filename applies and the output then still depends on the
current date — see the counterexample.) -/
theorem export_deterministic (numStr : ℚ → Str) (fmtDate : Str → Str)
    (transactions : List Transaction) (fn : Str) (today1 today2 : Str)
    (h : fn ≠ []) :
    exportToCSV numStr fmtDate transactions (some fn) today1 =
      exportToCSV numStr fmtDate transactions (some fn) today2 ∧
    exportToExcel numStr fmtDate transactions (some fn) today1 =
      exportToExcel numStr fmtDate transactions (some fn) today2 := by
  have hfn : ∀ d, jsOrOpt (some fn) d = fn := fun d => by simp [jsOrOpt, h]
  constructor
  · simp only [exportToCSV, hfn]
  · simp only [exportToExcel, hfn]

/-- C10 counterexample: with an explicitly supplied *empty* filename the
output differs between two runs on different days, because the empty string
is falsy and the date-based default filename is used. -/
theorem export_deterministic_counterexample :
    exportToCSV (fun _ => []) id zeroTxs (some []) (str "2026-01-01") ≠
      exportToCSV (fun _ => []) id zeroTxs (some []) (str "2026-02-02") := by
  decide

/-- C10 witness: a run with a non-empty filename is date-independent. -/
theorem export_deterministic_witness :
    str "my.csv" ≠ ([] : Str) ∧
    exportToCSV (fun _ => []) id sampleTxs (some (str "my.csv")) (str "2026-01-01") =
      exportToCSV (fun _ => []) id sampleTxs (some (str "my.csv")) (str "2026-02-02") :=
  ⟨by decide,
   (export_deterministic (fun _ => []) id sampleTxs (str "my.csv")
     (str "2026-01-01") (str "2026-02-02") (by decide)).1⟩
